import Mathlib

/-!
Shallow embedding of the Pomodoro tracker core (session ledger, settings
store, statistics engine) from `app/models.py`, `app/routes.py` and
`app/forms.py`, together with theorems settling the specification claims.

Time is modelled in whole minutes since an arbitrary epoch (an `Int`);
`duration` fields are minutes.  `func.date(ts)` becomes `dateOf`, floor
division of the minute count by 1440 (minutes per day).  The session
ledger is a list of rows; the SQL `count()` queries become `List.countP`
and `sum()` becomes a `List.sum` over the filtered rows.
-/

namespace Pomodoro

/-- A row of the `pomodoro_sessions` table (`PomodoroSession` in
`app/models.py`): user foreign key, duration in minutes, completion flag,
free-form `session_type` string (the column is `db.String(20)`, no enum
constraint), start timestamp and optional completion timestamp. -/
structure Session where
  id : Nat
  user_id : Nat
  duration : Int
  completed : Bool
  session_type : String
  started_at : Int
  completed_at : Option Int
  deriving Repr, DecidableEq

/-- Minutes per day; `func.date` truncates a timestamp to its calendar day. -/
def minutesPerDay : Int := 1440

/-- The calendar date of a timestamp: floor division of the minute count
by 1440, mirroring `func.date(PomodoroSession.started_at)`. -/
def dateOf (t : Int) : Int := Int.fdiv t minutesPerDay

/-- The JSON body of a `/api/session/start` or `/api/session/complete`
request: both fields optional, read with `data.get('duration', 25)` and
`data.get('session_type', 'work')`. -/
structure SessionRequest where
  duration : Option Int
  session_type : Option String
  deriving Repr, DecidableEq

/-- Response of `/api/session/start`: `{'success': True, 'session_id': id}`. -/
structure StartResponse where
  success : Bool
  session_id : Nat
  deriving Repr, DecidableEq

/-- Response of `/api/session/complete`:
`{'success': True, 'session_id': id, 'total_sessions': n}`. -/
structure CompleteResponse where
  success : Bool
  session_id : Nat
  total_sessions : Nat
  deriving Repr, DecidableEq

/-- The filter shared by every statistics query in `routes.py`:
`user_id == uid AND session_type == 'work' AND completed == True`. -/
def qualifies (u : Nat) (s : Session) : Bool :=
  s.user_id == u && s.session_type == "work" && s.completed

/-- `start_session` (`routes.py` 201–220): appends a brand-new pending row
with `started_at = now` (server clock), `duration = data.get('duration', 25)`,
`session_type = data.get('session_type', 'work')`; `completed` and
`completed_at` keep their model defaults (`False`, `NULL`).  Returns the
grown ledger and the JSON response. -/
def startSession (l : List Session) (uid : Nat) (now : Int)
    (req : SessionRequest) (freshId : Nat) : List Session × StartResponse :=
  let row : Session :=
    { id := freshId
      user_id := uid
      duration := req.duration.getD 25
      completed := false
      session_type := req.session_type.getD "work"
      started_at := now
      completed_at := none }
  (l ++ [row], { success := true, session_id := freshId })

/-- `complete_session` (`routes.py` 223–254): appends a brand-new row with
`completed = True`, `completed_at = now` and
`started_at = now - timedelta(minutes=duration)`; it performs no lookup of
any existing row.  The response carries the post-insert count of completed
work sessions for the user. -/
def completeSession (l : List Session) (uid : Nat) (now : Int)
    (req : SessionRequest) (freshId : Nat) : List Session × CompleteResponse :=
  let d := req.duration.getD 25
  let row : Session :=
    { id := freshId
      user_id := uid
      duration := d
      completed := true
      session_type := req.session_type.getD "work"
      started_at := now - d
      completed_at := some now }
  let l' := l ++ [row]
  (l', { success := true
         session_id := freshId
         total_sessions := l'.countP (qualifies uid) })

/-- Rows of the ledger belonging to one user. -/
def rowsOf (l : List Session) (u : Nat) : List Session :=
  l.filter (fun s => s.user_id == u)

/-- A row of the `user_settings` table (`UserSettings` in `app/models.py`)
with the column defaults from the model: 25/5/15/4, auto-start off,
notifications and sound on, theme `light`. -/
structure UserSettings where
  id : Nat
  user_id : Nat
  work_duration : Int := 25
  short_break_duration : Int := 5
  long_break_duration : Int := 15
  long_break_interval : Int := 4
  auto_start_breaks : Bool := false
  auto_start_pomodoros : Bool := false
  notifications_enabled : Bool := true
  sound_enabled : Bool := true
  theme : String := "light"
  deriving Repr, DecidableEq

/-- The settings lookup of the `/settings` route (`routes.py` 181–186):
`UserSettings.query.filter_by(user_id=...).first()`, and on a miss a fresh
default row is inserted and returned. -/
def getOrCreateSettings (tbl : List UserSettings) (uid : Nat)
    (freshId : Nat) : List UserSettings × UserSettings :=
  match tbl.find? (fun s => s.user_id == uid) with
  | some s => (tbl, s)
  | none =>
      let s : UserSettings := { id := freshId, user_id := uid }
      (tbl ++ [s], s)

/-- The submitted fields of `SettingsForm` (`app/forms.py` 60–92): four
integer fields and four booleans.  `theme` is not a form field. -/
structure SettingsFormData where
  work_duration : Int
  short_break_duration : Int
  long_break_duration : Int
  long_break_interval : Int
  auto_start_breaks : Bool
  auto_start_pomodoros : Bool
  notifications_enabled : Bool
  sound_enabled : Bool
  deriving Repr, DecidableEq

/-- The `NumberRange` validators of `SettingsForm`: work 1–60,
short break 1–30, long break 1–60, long-break interval 2–10.  Returns the
names of the offending fields; WTForms runs every field's validators, so
all violations are reported.  (`DataRequired` additionally rejects the
falsy integer 0, which the ranges already exclude, so the accepted set is
unchanged.) -/
def validateSettingsForm (f : SettingsFormData) : List String :=
  (if 1 ≤ f.work_duration ∧ f.work_duration ≤ 60 then []
   else ["work_duration"]) ++
  (if 1 ≤ f.short_break_duration ∧ f.short_break_duration ≤ 30 then []
   else ["short_break_duration"]) ++
  (if 1 ≤ f.long_break_duration ∧ f.long_break_duration ≤ 60 then []
   else ["long_break_duration"]) ++
  (if 2 ≤ f.long_break_interval ∧ f.long_break_interval ≤ 10 then []
   else ["long_break_interval"])

/-- The POST half of the `/settings` route (`routes.py` 188–196):
`form.validate_on_submit()` runs all validators, and only when every one
passes does `form.populate_obj(user_settings)` copy every form field onto
the row (atomically; `theme` has no form field and is untouched).  On any
validation failure the row is left exactly as it was and the field errors
are reported. -/
def updateSettings (s : UserSettings) (f : SettingsFormData) :
    UserSettings × List String :=
  let errs := validateSettingsForm f
  if errs.isEmpty then
    ({ s with
        work_duration := f.work_duration
        short_break_duration := f.short_break_duration
        long_break_duration := f.long_break_duration
        long_break_interval := f.long_break_interval
        auto_start_breaks := f.auto_start_breaks
        auto_start_pomodoros := f.auto_start_pomodoros
        notifications_enabled := f.notifications_enabled
        sound_enabled := f.sound_enabled }, [])
  else (s, errs)

/-- `count_on_date` — the `today_sessions` / weekly-chart query shape
(`routes.py` 96–101, 140–145): completed work sessions of the user whose
`func.date(started_at)` equals the given day. -/
def countOnDate (l : List Session) (u : Nat) (d : Int) : Nat :=
  l.countP (fun s => qualifies u s && (dateOf s.started_at == d))

/-- `count_since` — the `week_sessions` query shape (`routes.py` 104–109):
completed work sessions of the user whose `func.date(started_at)` is on or
after the given day. -/
def countSince (l : List Session) (u : Nat) (d : Int) : Nat :=
  l.countP (fun s => qualifies u s && (d ≤ dateOf s.started_at))

/-- `total_count` — the `total_sessions` query (`routes.py` 112–116). -/
def totalCount (l : List Session) (u : Nat) : Nat :=
  l.countP (qualifies u)

/-- `total_focus_minutes` — `func.sum(duration)` over completed work
sessions of the user (`routes.py` 119–125), with `or 0` turning the empty
sum's `NULL` into 0 (a `List.sum` of the empty list is already 0). -/
def totalFocusMinutes (l : List Session) (u : Nat) : Int :=
  ((l.filter (qualifies u)).map (fun s => s.duration)).sum

/-- Round a rational to the nearest integer, ties to even — the rounding
law of Python's builtin `round`. -/
def roundHalfEven (q : ℚ) : ℤ :=
  let f := ⌊q⌋
  let r := q - f
  if r < 1/2 then f
  else if 1/2 < r then f + 1
  else if f % 2 = 0 then f else f + 1

/-- `total_hours = round(total_duration / 60, 1)` (`routes.py` 127):
one-decimal rounding of the focus minutes divided by 60, i.e. the
half-to-even rounding of `minutes/6` tenths. -/
def totalFocusHours (l : List Session) (u : Nat) : ℚ :=
  (roundHalfEven ((totalFocusMinutes l u : ℚ) / 6) : ℚ) / 10

/-- The weekly chart (`routes.py` 136–146): for `i` in `range(7)` the
count on day `today - (6 - i)`, i.e. oldest day first. -/
def weeklyData (l : List Session) (u : Nat) (today : Int) : List Nat :=
  (List.range 7).map (fun i : Nat => countOnDate l u (today - 6 + (i : Int)))

/-- The `/api/stats` payload (`routes.py` 257–279): today's completed work
sessions and the all-time total. -/
def getStats (l : List Session) (u : Nat) (today : Int) : Nat × Nat :=
  (countOnDate l u today, totalCount l u)

/-- Modelled from the spec: the Session Cycle Policy of §4.4 is absent
from the source (the spec calls it "largely absent from source — a gap
this spec fills"), so `next_session_type` is defined from the spec's
words: after the just-finished session (`lastType`), with `n` completed
work sessions in the current cycle, suggest `long_break` after every
`long_break_interval`-th completed work session, `short_break` after any
other work session, and `work` after any break. -/
def nextSessionType (s : UserSettings) (lastType : String) (n : Int) :
    String :=
  if lastType == "short_break" || lastType == "long_break" then "work"
  else if 0 < n && n % s.long_break_interval == 0 then "long_break"
  else "short_break"

/-! ## Claim theorems -/

/-- C1: `complete_session` always appends a brand-new completed row with
`completed_at = now` and `started_at = now - duration`, never touching any
existing row (the ledger is only extended); hence `start_session` followed
by `complete_session` for a user with no prior rows leaves exactly two
rows for that user, one pending and one completed. -/
theorem claim1_complete_session_independent_row
    (l : List Session) (u fid : Nat) (now : Int) (req : SessionRequest) :
    (completeSession l u now req fid).1 =
      l ++ [{ id := fid, user_id := u, duration := req.duration.getD 25,
              completed := true,
              session_type := req.session_type.getD "work",
              started_at := now - req.duration.getD 25,
              completed_at := some now }]
    ∧ ∀ (t₂ : Int) (req₂ : SessionRequest) (id₂ : Nat),
        rowsOf l u = [] →
        ∃ p c,
          rowsOf (completeSession (startSession l u now req fid).1
              u t₂ req₂ id₂).1 u = [p, c]
          ∧ p.completed = false ∧ p.completed_at = none
          ∧ c.completed = true ∧ c.completed_at = some t₂
          ∧ c.started_at = t₂ - req₂.duration.getD 25 := by
  refine ⟨rfl, ?_⟩
  intro t₂ req₂ id₂ h
  unfold rowsOf at h
  refine ⟨{ id := fid, user_id := u, duration := req.duration.getD 25,
            completed := false, session_type := req.session_type.getD "work",
            started_at := now, completed_at := none },
          { id := id₂, user_id := u, duration := req₂.duration.getD 25,
            completed := true, session_type := req₂.session_type.getD "work",
            started_at := t₂ - req₂.duration.getD 25,
            completed_at := some t₂ },
          ?_, rfl, rfl, rfl, rfl, rfl⟩
  simp [rowsOf, startSession, completeSession, List.filter_append, h]

/-- Witness for C1 at a concrete ledger, user, times and requests. -/
theorem claim1_witness :
    rowsOf ([] : List Session) 1 = [] ∧
    ∃ p c,
      rowsOf (completeSession (startSession [] 1 100 ⟨some 25, some "work"⟩ 1).1
          1 125 ⟨some 25, some "work"⟩ 2).1 1 = [p, c]
      ∧ p.completed = false ∧ p.completed_at = none
      ∧ c.completed = true ∧ c.completed_at = some 125
      ∧ c.started_at = 125 - (25 : Int) :=
  ⟨rfl,
    (claim1_complete_session_independent_row [] 1 1 100 ⟨some 25, some "work"⟩).2
      125 ⟨some 25, some "work"⟩ 2 rfl⟩

/-- C2 counterexample: `start_session` and `complete_session` perform no
validation of `session_type`.  With the invalid type `"bogus"` (not one
of work/short_break/long_break) both operations succeed and store the
string verbatim, refuting the claim that such a call fails with a
ValidationError. -/
theorem claim2_counterexample :
    ("bogus" ≠ "work" ∧ "bogus" ≠ "short_break" ∧ "bogus" ≠ "long_break")
    ∧ (startSession [] 1 0 ⟨some 25, some "bogus"⟩ 1).2.success = true
    ∧ (startSession [] 1 0 ⟨some 25, some "bogus"⟩ 1).1 =
        [⟨1, 1, 25, false, "bogus", 0, none⟩]
    ∧ (completeSession [] 1 0 ⟨some 25, some "bogus"⟩ 1).2.success = true
    ∧ (completeSession [] 1 0 ⟨some 25, some "bogus"⟩ 1).1 =
        [⟨1, 1, 25, true, "bogus", -25, some 0⟩] :=
  ⟨⟨by decide, by decide, by decide⟩, rfl, rfl, rfl, rfl⟩

/-- C2 amended: both session operations accept any `session_type` string
without validation, storing it verbatim (defaulting to `"work"` when
absent), and always succeed; they act on the given user id with no
user-existence lookup, so no NotFound arises either. -/
theorem claim2_amended_no_validation
    (l : List Session) (u fid : Nat) (now : Int) (req : SessionRequest) :
    (startSession l u now req fid).2.success = true
    ∧ (completeSession l u now req fid).2.success = true
    ∧ (∃ row, (startSession l u now req fid).1 = l ++ [row]
        ∧ row.session_type = req.session_type.getD "work")
    ∧ (∃ row, (completeSession l u now req fid).1 = l ++ [row]
        ∧ row.session_type = req.session_type.getD "work") :=
  ⟨rfl, rfl, ⟨_, rfl, rfl⟩, ⟨_, rfl, rfl⟩⟩

/-- C7: every row produced by the two session operations satisfies the
invariant: a pending row (`completed = false`) has no `completed_at`, and
a completed row has `completed_at ≥ started_at` whenever its duration is
a positive integer. -/
theorem claim7_session_invariant
    (l : List Session) (u fid : Nat) (now : Int) (req : SessionRequest) :
    (∃ row, (startSession l u now req fid).1 = l ++ [row]
        ∧ row.completed = false ∧ row.completed_at = none)
    ∧ (1 ≤ req.duration.getD 25 →
        ∃ row t, (completeSession l u now req fid).1 = l ++ [row]
          ∧ row.completed = true ∧ row.completed_at = some t
          ∧ row.started_at ≤ t) := by
  refine ⟨⟨_, rfl, rfl, rfl⟩, fun h => ⟨_, now, rfl, rfl, rfl, ?_⟩⟩
  show now - req.duration.getD 25 ≤ now
  omega

/-- Witness for C7 at a concrete request with duration 25. -/
theorem claim7_witness :
    (∃ row, (startSession [] 1 100 ⟨some 25, some "work"⟩ 1).1 = [] ++ [row]
        ∧ row.completed = false ∧ row.completed_at = none)
    ∧ (∃ row t,
        (completeSession [] 1 100 ⟨some 25, some "work"⟩ 1).1 = [] ++ [row]
        ∧ row.completed = true ∧ row.completed_at = some t
        ∧ row.started_at ≤ t) :=
  ⟨(claim7_session_invariant [] 1 1 100 ⟨some 25, some "work"⟩).1,
   (claim7_session_invariant [] 1 1 100 ⟨some 25, some "work"⟩).2 (by decide)⟩

/-- C8: `start_session` appends a pending row with `started_at` equal to
the server clock `now` (the request carries no time field at all), the
requested duration verbatim — 25 when absent — and the requested
`session_type` — `"work"` when absent.  The operation takes no settings
argument: no validation of the duration against settings occurs. -/
theorem claim8_start_session
    (l : List Session) (u fid : Nat) (now : Int) (req : SessionRequest) :
    ∃ row,
      (startSession l u now req fid).1 = l ++ [row]
      ∧ (startSession l u now req fid).2.success = true
      ∧ row.completed = false
      ∧ row.started_at = now
      ∧ row.duration = req.duration.getD 25
      ∧ (req.duration = none → row.duration = 25)
      ∧ row.session_type = req.session_type.getD "work"
      ∧ (req.session_type = none → row.session_type = "work") := by
  refine ⟨_, rfl, rfl, rfl, rfl, rfl, fun h => ?_, rfl, fun h => ?_⟩ <;>
    simp [h]

/-- Witness for C8 at the empty request (both fields absent). -/
theorem claim8_witness :
    ∃ row,
      (startSession [] 1 100 ⟨none, none⟩ 1).1 = [] ++ [row]
      ∧ (startSession [] 1 100 ⟨none, none⟩ 1).2.success = true
      ∧ row.completed = false
      ∧ row.started_at = 100
      ∧ row.duration = (SessionRequest.mk none none).duration.getD 25
      ∧ ((SessionRequest.mk none none).duration = none → row.duration = 25)
      ∧ row.session_type = (SessionRequest.mk none none).session_type.getD "work"
      ∧ ((SessionRequest.mk none none).session_type = none →
          row.session_type = "work") :=
  claim8_start_session [] 1 1 100 ⟨none, none⟩

/-- C3: starting from a table with at most one settings row for the user,
`get_or_create_settings` keeps at most one row; a second call returns the
same settings id and does not grow the table; and on a miss the created
row carries the documented defaults (25/5/15/4, notifications and sound
on, auto-start off, theme light). -/
theorem claim3_settings_singleton
    (tbl : List UserSettings) (u f1 f2 : Nat)
    (hone : tbl.countP (fun s => s.user_id == u) ≤ 1) :
    (getOrCreateSettings (getOrCreateSettings tbl u f1).1 u f2).2.id
        = (getOrCreateSettings tbl u f1).2.id
    ∧ (getOrCreateSettings (getOrCreateSettings tbl u f1).1 u f2).1
        = (getOrCreateSettings tbl u f1).1
    ∧ (getOrCreateSettings tbl u f1).1.countP (fun s => s.user_id == u) ≤ 1
    ∧ (tbl.find? (fun s => s.user_id == u) = none →
        (getOrCreateSettings tbl u f1).2 =
          { id := f1, user_id := u, work_duration := 25,
            short_break_duration := 5, long_break_duration := 15,
            long_break_interval := 4, auto_start_breaks := false,
            auto_start_pomodoros := false, notifications_enabled := true,
            sound_enabled := true, theme := "light" }) := by
  cases h : tbl.find? (fun s => s.user_id == u) with
  | some s => simp [getOrCreateSettings, h, hone]
  | none =>
      have h0 : tbl.countP (fun s => s.user_id == u) = 0 :=
        List.countP_eq_zero.mpr (List.find?_eq_none.mp h)
      have hfind :
          (tbl ++ [({ id := f1, user_id := u } : UserSettings)]).find?
              (fun s => s.user_id == u)
            = some { id := f1, user_id := u } := by
        rw [List.find?_append, h]
        simp [List.find?_cons]
      simp [getOrCreateSettings, h, hfind, List.countP_append, h0]

/-- Witness for C3: the empty settings table trivially has at most one
row for user 1. -/
theorem claim3_witness :
    (getOrCreateSettings (getOrCreateSettings [] 1 5).1 1 9).2.id
        = (getOrCreateSettings [] 1 5).2.id
    ∧ (getOrCreateSettings (getOrCreateSettings [] 1 5).1 1 9).1
        = (getOrCreateSettings [] 1 5).1
    ∧ (getOrCreateSettings [] 1 5).1.countP (fun s => s.user_id == 1) ≤ 1
    ∧ (([] : List UserSettings).find? (fun s => s.user_id == 1) = none →
        (getOrCreateSettings [] 1 5).2 =
          { id := 5, user_id := 1, work_duration := 25,
            short_break_duration := 5, long_break_duration := 15,
            long_break_interval := 4, auto_start_breaks := false,
            auto_start_pomodoros := false, notifications_enabled := true,
            sound_enabled := true, theme := "light" }) :=
  claim3_settings_singleton [] 1 5 9 (by decide)

/-- C6: `update_settings` succeeds exactly when every field is in range
(work and long break 1–60, short break 1–30, interval 2–10 — so
interval 1 is rejected and interval 10 is accepted); any rejection leaves
the stored settings completely unchanged and names each offending field,
and a success applies every form field atomically. -/
theorem claim6_update_settings_validation
    (s : UserSettings) (f : SettingsFormData) :
    ((updateSettings s f).2 = [] ↔
       (1 ≤ f.work_duration ∧ f.work_duration ≤ 60)
       ∧ (1 ≤ f.short_break_duration ∧ f.short_break_duration ≤ 30)
       ∧ (1 ≤ f.long_break_duration ∧ f.long_break_duration ≤ 60)
       ∧ (2 ≤ f.long_break_interval ∧ f.long_break_interval ≤ 10))
    ∧ ((updateSettings s f).2 ≠ [] → (updateSettings s f).1 = s)
    ∧ (¬(1 ≤ f.work_duration ∧ f.work_duration ≤ 60) →
        "work_duration" ∈ (updateSettings s f).2)
    ∧ (¬(1 ≤ f.short_break_duration ∧ f.short_break_duration ≤ 30) →
        "short_break_duration" ∈ (updateSettings s f).2)
    ∧ (¬(1 ≤ f.long_break_duration ∧ f.long_break_duration ≤ 60) →
        "long_break_duration" ∈ (updateSettings s f).2)
    ∧ (¬(2 ≤ f.long_break_interval ∧ f.long_break_interval ≤ 10) →
        "long_break_interval" ∈ (updateSettings s f).2)
    ∧ (f.long_break_interval = 1 →
        (updateSettings s f).1 = s
        ∧ "long_break_interval" ∈ (updateSettings s f).2)
    ∧ ((updateSettings s f).2 = [] →
        (updateSettings s f).1 =
          { s with
              work_duration := f.work_duration
              short_break_duration := f.short_break_duration
              long_break_duration := f.long_break_duration
              long_break_interval := f.long_break_interval
              auto_start_breaks := f.auto_start_breaks
              auto_start_pomodoros := f.auto_start_pomodoros
              notifications_enabled := f.notifications_enabled
              sound_enabled := f.sound_enabled }) := by
  unfold updateSettings validateSettingsForm
  split_ifs <;> simp_all <;> omega

/-- Witness for C6: interval 1 is rejected and the row is unchanged. -/
theorem claim6_witness :
    (updateSettings
        { id := 1, user_id := 1 }
        ⟨30, 10, 20, 1, true, false, true, false⟩).1
      = { id := 1, user_id := 1 }
    ∧ "long_break_interval" ∈
        (updateSettings
          { id := 1, user_id := 1 }
          ⟨30, 10, 20, 1, true, false, true, false⟩).2 :=
  (claim6_update_settings_validation
      { id := 1, user_id := 1 }
      ⟨30, 10, 20, 1, true, false, true, false⟩).2.2.2.2.2.2.1 rfl

/-- C5: `total_focus_minutes` is the sum of `duration` over completed
work sessions of the user, `total_focus_hours` is that sum divided by 60
rounded to one decimal under the single half-to-even policy, and for a
ledger of three completed work sessions of 25, 25 and 10 minutes the
totals are 60 minutes and 1.0 hours. -/
theorem claim5_total_focus (l : List Session) (u : Nat) :
    totalFocusMinutes l u
      = ((l.filter (qualifies u)).map (fun s => s.duration)).sum
    ∧ totalFocusHours l u
      = (roundHalfEven ((totalFocusMinutes l u : ℚ) / 6) : ℚ) / 10
    ∧ ∀ s₁ s₂ s₃ : Session,
        s₁.user_id = u → s₁.session_type = "work" → s₁.completed = true →
        s₁.duration = 25 →
        s₂.user_id = u → s₂.session_type = "work" → s₂.completed = true →
        s₂.duration = 25 →
        s₃.user_id = u → s₃.session_type = "work" → s₃.completed = true →
        s₃.duration = 10 →
        totalFocusMinutes [s₁, s₂, s₃] u = 60
        ∧ totalFocusHours [s₁, s₂, s₃] u = 1 := by
  refine ⟨rfl, rfl, ?_⟩
  intro s₁ s₂ s₃ h1u h1t h1c h1d h2u h2t h2c h2d h3u h3t h3c h3d
  have q1 : qualifies u s₁ = true := by simp [qualifies, h1u, h1t, h1c]
  have q2 : qualifies u s₂ = true := by simp [qualifies, h2u, h2t, h2c]
  have q3 : qualifies u s₃ = true := by simp [qualifies, h3u, h3t, h3c]
  have hm : totalFocusMinutes [s₁, s₂, s₃] u = 60 := by
    simp [totalFocusMinutes, List.filter_cons, q1, q2, q3, h1d, h2d, h3d]
  refine ⟨hm, ?_⟩
  rw [totalFocusHours, hm]
  norm_num [roundHalfEven]

/-- Witness for C5 at three concrete completed work sessions. -/
theorem claim5_witness :
    totalFocusMinutes
        [⟨1, 7, 25, true, "work", 0, some 25⟩,
         ⟨2, 7, 25, true, "work", 100, some 125⟩,
         ⟨3, 7, 10, true, "work", 200, some 210⟩] 7 = 60
    ∧ totalFocusHours
        [⟨1, 7, 25, true, "work", 0, some 25⟩,
         ⟨2, 7, 25, true, "work", 100, some 125⟩,
         ⟨3, 7, 10, true, "work", 200, some 210⟩] 7 = 1 :=
  (claim5_total_focus
      [⟨1, 7, 25, true, "work", 0, some 25⟩,
       ⟨2, 7, 25, true, "work", 100, some 125⟩,
       ⟨3, 7, 10, true, "work", 200, some 210⟩] 7).2.2
    _ _ _ rfl rfl rfl rfl rfl rfl rfl rfl rfl rfl rfl rfl

/-- C9 (policy modelled from the spec, absent from the source): the next
suggested type is `work` after any break; after a completed work session
it is `long_break` exactly when the cycle count is a positive multiple of
`long_break_interval`, and `short_break` otherwise. -/
theorem claim9_next_session_type (s : UserSettings) (n : Int) :
    (∀ lastType, lastType = "short_break" ∨ lastType = "long_break" →
        nextSessionType s lastType n = "work")
    ∧ (0 < n → s.long_break_interval ∣ n →
        nextSessionType s "work" n = "long_break")
    ∧ (0 < n → ¬ s.long_break_interval ∣ n →
        nextSessionType s "work" n = "short_break")
    ∧ (n ≤ 0 → nextSessionType s "work" n = "short_break") := by
  refine ⟨?_, ?_, ?_, ?_⟩
  · rintro lastType (rfl | rfl) <;> rfl
  · intro hpos hdvd
    simp [nextSessionType, hpos, Int.emod_eq_zero_of_dvd hdvd]
  · intro hpos hdvd
    have : ¬ n % s.long_break_interval = 0 :=
      fun h => hdvd (Int.dvd_of_emod_eq_zero h)
    simp [nextSessionType, hpos, this]
  · intro hle
    have : ¬ (0 : Int) < n := by omega
    simp [nextSessionType, this]

/-- Witness for C9 with the default settings (interval 4): after a break
the next type is work; after the 8th work session of a cycle a long
break; after the 3rd a short break. -/
theorem claim9_witness :
    nextSessionType { id := 1, user_id := 1 } "short_break" 4 = "work"
    ∧ nextSessionType { id := 1, user_id := 1 } "long_break" 4 = "work"
    ∧ nextSessionType { id := 1, user_id := 1 } "work" 8 = "long_break"
    ∧ nextSessionType { id := 1, user_id := 1 } "work" 3 = "short_break" :=
  ⟨(claim9_next_session_type { id := 1, user_id := 1 } 4).1 "short_break"
      (Or.inl rfl),
   (claim9_next_session_type { id := 1, user_id := 1 } 4).1 "long_break"
      (Or.inr rfl),
   (claim9_next_session_type { id := 1, user_id := 1 } 8).2.1
      (by decide) (by decide),
   (claim9_next_session_type { id := 1, user_id := 1 } 3).2.2.1
      (by decide) (by decide)⟩

/-- A count over a predicate that implies membership of a user's rows is
unchanged by restricting the ledger to that user's rows. -/
theorem countP_restrict_user (l : List Session) (u : Nat)
    (r : Session → Bool) :
    l.countP (fun s => qualifies u s && r s)
      = (rowsOf l u).countP (fun s => qualifies u s && r s) := by
  unfold rowsOf
  rw [List.countP_filter]
  refine List.countP_congr ?_
  intro s _
  cases hb : (s.user_id == u) <;> simp [qualifies, hb]

/-- C10: the `/api/stats` figures for a user coincide on any two ledgers
that agree on that user's rows — sessions of other users never influence
them. -/
theorem claim10_stats_noninterference
    (l₁ l₂ : List Session) (u : Nat) (today : Int)
    (h : rowsOf l₁ u = rowsOf l₂ u) :
    getStats l₁ u today = getStats l₂ u today := by
  have e1 : countOnDate l₁ u today = countOnDate l₂ u today := by
    unfold countOnDate
    rw [countP_restrict_user l₁ u _, countP_restrict_user l₂ u _, h]
  have e2 : totalCount l₁ u = totalCount l₂ u := by
    unfold totalCount
    have t : ∀ m : List Session,
        m.countP (qualifies u)
          = m.countP (fun s => qualifies u s && (fun _ : Session => true) s) := by
      intro m
      simp
    rw [t l₁, t l₂, countP_restrict_user l₁ u _, countP_restrict_user l₂ u _, h]
  simp [getStats, e1, e2]

/-- Witness for C10: the two ledgers agree on user 1's rows but user 2
has an extra completed work session in the second; the stats coincide. -/
theorem claim10_witness :
    getStats [⟨1, 1, 25, true, "work", 0, some 25⟩] 1 0
      = getStats
          [⟨1, 1, 25, true, "work", 0, some 25⟩,
           ⟨2, 2, 25, true, "work", 0, some 25⟩] 1 0 :=
  claim10_stats_noninterference
    [⟨1, 1, 25, true, "work", 0, some 25⟩]
    [⟨1, 1, 25, true, "work", 0, some 25⟩,
     ⟨2, 2, 25, true, "work", 0, some 25⟩] 1 0 (by decide)

/-- C4 counterexample: a ledger state reachable through the core
operations themselves — `complete_session` with the client-supplied
duration −20160 back-computes `started_at = now + 20160` minutes, a date
fourteen days in the future — on which the seven histogram buckets sum to
0 while `count_since(today − 6)` is 1, refuting the claimed equality for
arbitrary ledger states. -/
theorem claim4_counterexample :
    (weeklyData (completeSession [] 1 0 ⟨some (-20160), some "work"⟩ 1).1
        1 0).sum
      ≠ countSince (completeSession [] 1 0 ⟨some (-20160), some "work"⟩ 1).1
          1 (0 - 6) := by
  decide

/-- Sum of the seven one-day indicator buckets for a single session:
when the session can qualify at all, the bound `dte ≤ today` collapses
the sum to the single week-window indicator. -/
theorem bucket_indicator_sum (q : Bool) (dte today : Int)
    (hd : q = true → dte ≤ today) :
    ((List.range 7).map (fun i : Nat =>
        if (q && (dte == today - 6 + (i : Int))) = true then (1 : ℕ)
        else 0)).sum
      = if (q && decide (today - 6 ≤ dte)) = true then 1 else 0 := by
  have h7 : List.range 7 = [0, 1, 2, 3, 4, 5, 6] := rfl
  rw [h7]
  cases q with
  | false => simp
  | true =>
    have hd' : dte ≤ today := hd rfl
    simp only [Bool.true_and, List.map_cons, List.map_nil, List.sum_cons,
      List.sum_nil, beq_iff_eq, decide_eq_true_eq, Nat.cast_zero,
      Nat.cast_one, Nat.cast_ofNat]
    split_ifs <;> omega

/-- The histogram sum equals `count_since(today − 6)` for every ledger
whose sessions belonging to the queried user all start no later than
`today`; other users' rows are unconstrained (they never qualify). -/
theorem weekly_sum_aux (u : Nat) (today : Int) :
    ∀ l : List Session,
      (∀ s ∈ l, s.user_id = u → dateOf s.started_at ≤ today) →
      (weeklyData l u today).sum = countSince l u (today - 6) := by
  intro l
  induction l with
  | nil => intro _; simp [weeklyData, countOnDate, countSince]
  | cons a t ih =>
    intro h
    have ha : qualifies u a = true → dateOf a.started_at ≤ today := by
      intro hq
      simp only [qualifies, Bool.and_eq_true, beq_iff_eq] at hq
      exact h a (List.mem_cons_self a t) hq.1.1
    have ht : ∀ s ∈ t, s.user_id = u → dateOf s.started_at ≤ today :=
      fun s hs => h s (List.mem_cons_of_mem a hs)
    have hmap : weeklyData (a :: t) u today
        = (List.range 7).map (fun i : Nat =>
            countOnDate t u (today - 6 + (i : Int)) +
              (if (qualifies u a &&
                    (dateOf a.started_at == today - 6 + (i : Int))) = true
                then 1 else 0)) := by
      unfold weeklyData
      congr 1
      funext i
      exact List.countP_cons _ _ _
    have hsince : countSince (a :: t) u (today - 6)
        = countSince t u (today - 6) +
            (if (qualifies u a &&
                  decide (today - 6 ≤ dateOf a.started_at)) = true
              then 1 else 0) := List.countP_cons _ _ _
    have hwt : ((List.range 7).map (fun i : Nat =>
          countOnDate t u (today - 6 + (i : Int)))).sum
        = countSince t u (today - 6) := ih ht
    calc (weeklyData (a :: t) u today).sum
        = ((List.range 7).map (fun i : Nat =>
              countOnDate t u (today - 6 + (i : Int)) +
                (if (qualifies u a &&
                      (dateOf a.started_at == today - 6 + (i : Int))) = true
                  then 1 else 0))).sum := by rw [hmap]
      _ = ((List.range 7).map (fun i : Nat =>
              countOnDate t u (today - 6 + (i : Int)))).sum +
            ((List.range 7).map (fun i : Nat =>
              if (qualifies u a &&
                    (dateOf a.started_at == today - 6 + (i : Int))) = true
                then 1 else 0)).sum :=
          List.sum_map_add
            (f := fun i : ℕ => countOnDate t u (today - 6 + (i : Int)))
            (g := fun i : ℕ =>
              if (qualifies u a &&
                    (dateOf a.started_at == today - 6 + (i : Int))) = true
                then 1 else 0)
      _ = countSince t u (today - 6) +
            (if (qualifies u a &&
                  decide (today - 6 ≤ dateOf a.started_at)) = true
              then 1 else 0) := by
          rw [hwt,
            bucket_indicator_sum (qualifies u a) (dateOf a.started_at)
              today ha]
      _ = countSince (a :: t) u (today - 6) := hsince.symm

/-- C4 amended: the weekly histogram unconditionally has exactly 7
entries, oldest day first, each equal to `count_on_date` for its day;
and provided every session of the queried user starts no later than
`today` — as holds for every ledger the core operations build with
nonnegative durations, but not for the future-dated rows a negative
client duration creates — their sum equals `count_since(today − 6)`. -/
theorem claim4_amended_weekly_histogram
    (l : List Session) (u : Nat) (today : Int) :
    (weeklyData l u today).length = 7
    ∧ (∀ i : Nat, i < 7 →
        (weeklyData l u today).getD i 0
          = countOnDate l u (today - 6 + (i : Int)))
    ∧ ((∀ s ∈ l, s.user_id = u → dateOf s.started_at ≤ today) →
        (weeklyData l u today).sum = countSince l u (today - 6)) := by
  refine ⟨rfl, ?_, weekly_sum_aux u today l⟩
  intro i hi
  interval_cases i <;> rfl

/-- Witness for C4 (amended) on a concrete three-session ledger: user 1
has one completed work session today and one six days ago, while user 2
has a future-dated row (as a negative-duration `complete_session` call
creates) that the per-user hypothesis rightly ignores. -/
theorem claim4_witness :
    (weeklyData
        [⟨1, 1, 25, true, "work", 10 * 1440, some (10 * 1440 + 25)⟩,
         ⟨2, 1, 25, true, "work", 4 * 1440, some (4 * 1440 + 25)⟩,
         ⟨3, 2, 25, true, "work", 20 * 1440, some (20 * 1440 + 25)⟩]
        1 10).length
      = 7
    ∧ (∀ i : Nat, i < 7 →
        (weeklyData
          [⟨1, 1, 25, true, "work", 10 * 1440, some (10 * 1440 + 25)⟩,
           ⟨2, 1, 25, true, "work", 4 * 1440, some (4 * 1440 + 25)⟩,
           ⟨3, 2, 25, true, "work", 20 * 1440, some (20 * 1440 + 25)⟩]
          1 10).getD i 0
          = countOnDate
              [⟨1, 1, 25, true, "work", 10 * 1440, some (10 * 1440 + 25)⟩,
               ⟨2, 1, 25, true, "work", 4 * 1440, some (4 * 1440 + 25)⟩,
               ⟨3, 2, 25, true, "work", 20 * 1440, some (20 * 1440 + 25)⟩]
              1 (10 - 6 + (i : Int)))
    ∧ (weeklyData
        [⟨1, 1, 25, true, "work", 10 * 1440, some (10 * 1440 + 25)⟩,
         ⟨2, 1, 25, true, "work", 4 * 1440, some (4 * 1440 + 25)⟩,
         ⟨3, 2, 25, true, "work", 20 * 1440, some (20 * 1440 + 25)⟩]
        1 10).sum
      = countSince
          [⟨1, 1, 25, true, "work", 10 * 1440, some (10 * 1440 + 25)⟩,
           ⟨2, 1, 25, true, "work", 4 * 1440, some (4 * 1440 + 25)⟩,
           ⟨3, 2, 25, true, "work", 20 * 1440, some (20 * 1440 + 25)⟩]
          1 (10 - 6) :=
  ⟨(claim4_amended_weekly_histogram
      [⟨1, 1, 25, true, "work", 10 * 1440, some (10 * 1440 + 25)⟩,
       ⟨2, 1, 25, true, "work", 4 * 1440, some (4 * 1440 + 25)⟩,
       ⟨3, 2, 25, true, "work", 20 * 1440, some (20 * 1440 + 25)⟩] 1 10).1,
   (claim4_amended_weekly_histogram
      [⟨1, 1, 25, true, "work", 10 * 1440, some (10 * 1440 + 25)⟩,
       ⟨2, 1, 25, true, "work", 4 * 1440, some (4 * 1440 + 25)⟩,
       ⟨3, 2, 25, true, "work", 20 * 1440, some (20 * 1440 + 25)⟩] 1 10).2.1,
   (claim4_amended_weekly_histogram
      [⟨1, 1, 25, true, "work", 10 * 1440, some (10 * 1440 + 25)⟩,
       ⟨2, 1, 25, true, "work", 4 * 1440, some (4 * 1440 + 25)⟩,
       ⟨3, 2, 25, true, "work", 20 * 1440, some (20 * 1440 + 25)⟩] 1 10).2.2
     (by decide)⟩

end Pomodoro
